import Mathlib

/- Verification of the decision-support core of the Climate Intervention
Coordination System: the rule-based suitability classifier, the feature
codec, the intervention ranking, the spatial deployment optimizer and the
temporal impact simulator, shallowly embedded over exact rational
arithmetic (the Python floats are modelled as rationals; the numpy
transcendental routines are modelled by an explicit function bundle). -/

namespace Climate

/-- Suitability tier, ordered low < medium < high. -/
inductive Tier where
  | low
  | medium
  | high
deriving DecidableEq, Repr

/-- Numeric rank of a tier under the ordering low < medium < high. -/
def Tier.rank : Tier → Nat
  | .low => 0
  | .medium => 1
  | .high => 2

/-- A climate-observation record (the `climate_data` dict of
`ml_engine.py`): every field is optional, mirroring `dict.get` with a
per-call default. -/
structure ClimateData where
  latitude : Option ℚ := none
  longitude : Option ℚ := none
  temperature : Option ℚ := none
  temperature_anomaly : Option ℚ := none
  co2_concentration : Option ℚ := none
  humidity : Option ℚ := none
  pressure : Option ℚ := none
  wind_speed : Option ℚ := none
  precipitation : Option ℚ := none
  aerosol_optical_depth : Option ℚ := none
  solar_irradiance : Option ℚ := none
  albedo : Option ℚ := none
  biomass_density : Option ℚ := none
  carbon_storage_potential : Option ℚ := none
  temperature_trend : Option ℚ := none
  co2_trend : Option ℚ := none
  precipitation_trend : Option ℚ := none
  intervention_type : Option String := none
  vegetation_type : Option String := none
  climate_zone : Option String := none
  cost_per_tonne : Option ℚ := none
deriving DecidableEq

/-- The weighted fallback score of the default branch of
`ClimateMLEngine._rule_based_suitability` (ml_engine.py lines 162-168):
co2_score = min(1.0, (co2-400)/50), biomass_score = min(1.0, biomass/80),
temp_score = min(1.0, temp_anomaly/2), combined with weights 0.4/0.4/0.2. -/
def ruleScore (co2 biomass temp_anomaly : ℚ) : ℚ :=
  min 1 ((co2 - 400) / 50) * 0.4 + min 1 (biomass / 80) * 0.4 +
    min 1 (temp_anomaly / 2) * 0.2

/-- Tier from the weighted score (ml_engine.py lines 170-175): high if the
score is at least 0.7, medium if at least 0.4, low otherwise. -/
def scoreTier (s : ℚ) : Tier :=
  if 0.7 ≤ s then .high else if 0.4 ≤ s then .medium else .low

/-- The body of `ClimateMLEngine._rule_based_suitability` (ml_engine.py
lines 148-175) on the three values it branches on: six explicit threshold
rules, then the weighted-score default.  (The function also reads
`humidity` with default 50 but never uses it.) -/
def ruleBasedCore (co2 biomass temp_anomaly : ℚ) : Tier :=
  if 430 ≤ co2 ∧ 65 ≤ biomass ∧ 1.3 ≤ temp_anomaly then .high
  else if 440 ≤ co2 ∧ 70 ≤ biomass ∧ 1.4 ≤ temp_anomaly then .high
  else if 450 ≤ co2 ∧ 75 ≤ biomass ∧ 1.5 ≤ temp_anomaly then .high
  else if co2 ≤ 380 ∧ biomass ≤ 25 ∧ 1.8 ≤ temp_anomaly then .low
  else if 460 ≤ co2 ∧ biomass ≤ 30 ∧ 2.0 ≤ temp_anomaly then .low
  else if (410 ≤ co2 ∧ co2 ≤ 420) ∧ (40 ≤ biomass ∧ biomass ≤ 55) ∧
      (0.8 ≤ temp_anomaly ∧ temp_anomaly ≤ 1.2) then .medium
  else scoreTier (ruleScore co2 biomass temp_anomaly)

/-- Model of `ClimateMLEngine._rule_based_suitability` (ml_engine.py lines 138-175):
reads co2_concentration (default 415), biomass_density (default 0) and
temperature_anomaly (default 0) from the observation and applies the rule
body. -/
def ruleBasedSuitability (d : ClimateData) : Tier :=
  ruleBasedCore (d.co2_concentration.getD 415) (d.biomass_density.getD 0)
    (d.temperature_anomaly.getD 0)

/-- Written from the spec sentence of claim C4: tier determined by
s = 0.4*clip(co2-400,0,50)/50 + 0.4*clip(biomass,0,80)/80 +
0.2*clip(temp_anomaly,0,2)/2, with thresholds 0.7 and 0.4. -/
def specClipTier (co2 biomass temp_anomaly : ℚ) : Tier :=
  if 0.7 ≤ 0.4 * (min 50 (max 0 (co2 - 400))) / 50 +
      0.4 * (min 80 (max 0 biomass)) / 80 +
      0.2 * (min 2 (max 0 temp_anomaly)) / 2 then .high
  else if 0.4 ≤ 0.4 * (min 50 (max 0 (co2 - 400))) / 50 +
      0.4 * (min 80 (max 0 biomass)) / 80 +
      0.2 * (min 2 (max 0 temp_anomaly)) / 2 then .medium
  else .low

/-- Written from the amended wording of claim C4: tier determined by the
min-capped (not lower-clipped) score
s = 0.4*min(1,(co2-400)/50) + 0.4*min(1,biomass/80) +
0.2*min(1,temp_anomaly/2), with thresholds 0.7 and 0.4. -/
def specMinTier (co2 biomass temp_anomaly : ℚ) : Tier :=
  if 0.7 ≤ 0.4 * min 1 ((co2 - 400) / 50) + 0.4 * min 1 (biomass / 80) +
      0.2 * min 1 (temp_anomaly / 2) then .high
  else if 0.4 ≤ 0.4 * min 1 ((co2 - 400) / 50) + 0.4 * min 1 (biomass / 80) +
      0.2 * min 1 (temp_anomaly / 2) then .medium
  else .low

/-- None of the six explicit threshold rules of
`_rule_based_suitability` fires on the given values. -/
def noExplicitRule (co2 biomass temp_anomaly : ℚ) : Prop :=
  ¬(430 ≤ co2 ∧ 65 ≤ biomass ∧ 1.3 ≤ temp_anomaly) ∧
  ¬(440 ≤ co2 ∧ 70 ≤ biomass ∧ 1.4 ≤ temp_anomaly) ∧
  ¬(450 ≤ co2 ∧ 75 ≤ biomass ∧ 1.5 ≤ temp_anomaly) ∧
  ¬(co2 ≤ 380 ∧ biomass ≤ 25 ∧ 1.8 ≤ temp_anomaly) ∧
  ¬(460 ≤ co2 ∧ biomass ≤ 30 ∧ 2.0 ≤ temp_anomaly) ∧
  ¬((410 ≤ co2 ∧ co2 ≤ 420) ∧ (40 ≤ biomass ∧ biomass ≤ 55) ∧
      (0.8 ≤ temp_anomaly ∧ temp_anomaly ≤ 1.2))

instance (co2 biomass temp_anomaly : ℚ) :
    Decidable (noExplicitRule co2 biomass temp_anomaly) := by
  unfold noExplicitRule; infer_instance

theorem ruleBasedCore_eq_scoreTier (co2 biomass temp_anomaly : ℚ)
    (h : noExplicitRule co2 biomass temp_anomaly) :
    ruleBasedCore co2 biomass temp_anomaly =
      scoreTier (ruleScore co2 biomass temp_anomaly) := by
  obtain ⟨h1, h2, h3, h4, h5, h6⟩ := h
  unfold ruleBasedCore
  rw [if_neg h1, if_neg h2, if_neg h3, if_neg h4, if_neg h5, if_neg h6]

theorem ruleScore_mono {c c' b b' t t' : ℚ} (hc : c ≤ c') (hb : b ≤ b')
    (ht : t ≤ t') : ruleScore c b t ≤ ruleScore c' b' t' := by
  unfold ruleScore
  gcongr

theorem scoreTier_mono {s s' : ℚ} (h : s ≤ s') :
    (scoreTier s).rank ≤ (scoreTier s').rank := by
  unfold scoreTier
  split_ifs <;> simp [Tier.rank] <;> linarith

/-- C2 counterexample: two observations identical except that the second
has a strictly larger CO2 concentration (459 vs 460, biomass 30,
temperature anomaly 2.0); the larger-CO2 observation is classified low
while the smaller one is classified high, so the tier drops. -/
theorem c2_suitability_not_monotone :
    (459 : ℚ) < 460 ∧
    ruleBasedSuitability { co2_concentration := some 459,
                           biomass_density := some 30,
                           temperature_anomaly := some 2 } = Tier.high ∧
    ruleBasedSuitability { co2_concentration := some 460,
                           biomass_density := some 30,
                           temperature_anomaly := some 2 } = Tier.low := by
  refine ⟨by norm_num, ?_, ?_⟩ <;>
    simp [ruleBasedSuitability, ruleBasedCore, scoreTier, ruleScore] <;>
    norm_num

/-- C2 amended: on observations where none of the six explicit threshold
rules fires, increasing CO2, biomass or temperature anomaly (all else
equal or also increasing) never lowers the tier assigned by the
rule-based classifier. -/
theorem c2_suitability_monotone_noExplicitRule (d d' : ClimateData)
    (h : noExplicitRule (d.co2_concentration.getD 415)
      (d.biomass_density.getD 0) (d.temperature_anomaly.getD 0))
    (h' : noExplicitRule (d'.co2_concentration.getD 415)
      (d'.biomass_density.getD 0) (d'.temperature_anomaly.getD 0))
    (hc : d.co2_concentration.getD 415 ≤ d'.co2_concentration.getD 415)
    (hb : d.biomass_density.getD 0 ≤ d'.biomass_density.getD 0)
    (ht : d.temperature_anomaly.getD 0 ≤ d'.temperature_anomaly.getD 0) :
    (ruleBasedSuitability d).rank ≤ (ruleBasedSuitability d').rank := by
  unfold ruleBasedSuitability
  rw [ruleBasedCore_eq_scoreTier _ _ _ h, ruleBasedCore_eq_scoreTier _ _ _ h']
  exact scoreTier_mono (ruleScore_mono hc hb ht)

/-- Witness for the amended C2 theorem at a concrete pair of
observations (co2 405 vs 406, biomass 10, anomaly 0.1). -/
theorem c2_monotone_witness :
    noExplicitRule 405 10 0.1 ∧ noExplicitRule 406 10 0.1 ∧
    (ruleBasedSuitability { co2_concentration := some 405,
                            biomass_density := some 10,
                            temperature_anomaly := some 0.1 }).rank ≤
      (ruleBasedSuitability { co2_concentration := some 406,
                              biomass_density := some 10,
                              temperature_anomaly := some 0.1 }).rank :=
  ⟨by unfold noExplicitRule; norm_num, by unfold noExplicitRule; norm_num,
    c2_suitability_monotone_noExplicitRule _ _
      (by unfold noExplicitRule; norm_num)
      (by unfold noExplicitRule; norm_num)
      (by norm_num) (by norm_num) (by norm_num)⟩

/-- C4 counterexample: on the observation (co2 460, biomass 30,
temperature anomaly 2.0) the fifth explicit threshold rule fires and the
classifier returns low, while the weighted-score formula of the claim
gives 0.4 + 0.15 + 0.2 = 0.75 and hence high — the classifier is not the
pure weighted-score rule the claim describes. -/
theorem c4_explicit_rules_override :
    ruleBasedSuitability { co2_concentration := some 460,
                           biomass_density := some 30,
                           temperature_anomaly := some 2 } = Tier.low ∧
    specClipTier 460 30 2 = Tier.high := by
  constructor <;>
    norm_num [ruleBasedSuitability, ruleBasedCore, specClipTier, scoreTier,
      ruleScore]

/-- C4 amended: whenever none of the six explicit threshold rules fires,
the untrained rule-based classifier returns exactly the tier of the
weighted score s = 0.4*min(1,(co2-400)/50) + 0.4*min(1,biomass/80) +
0.2*min(1,temp_anomaly/2) (min-capped, not clipped below zero), namely
high if s is at least 0.7, medium if at least 0.4, low otherwise. -/
theorem c4_default_branch_weighted_score (d : ClimateData)
    (h : noExplicitRule (d.co2_concentration.getD 415)
      (d.biomass_density.getD 0) (d.temperature_anomaly.getD 0)) :
    ruleBasedSuitability d =
      specMinTier (d.co2_concentration.getD 415) (d.biomass_density.getD 0)
        (d.temperature_anomaly.getD 0) := by
  unfold ruleBasedSuitability
  rw [ruleBasedCore_eq_scoreTier _ _ _ h]
  unfold scoreTier ruleScore specMinTier
  have hcomm : ∀ a b c : ℚ,
      a * 0.4 + b * 0.4 + c * 0.2 = 0.4 * a + 0.4 * b + 0.2 * c := by
    intro a b c; ring
  rw [hcomm]

/-- Witness for the amended C4 theorem at the concrete observation
(co2 405, biomass 10, anomaly 0.1), where no explicit rule fires. -/
theorem c4_default_branch_witness :
    noExplicitRule 405 10 0.1 ∧
    ruleBasedSuitability { co2_concentration := some 405,
                           biomass_density := some 10,
                           temperature_anomaly := some 0.1 } =
      specMinTier 405 10 0.1 :=
  ⟨by unfold noExplicitRule; norm_num,
    c4_default_branch_weighted_score _ (by unfold noExplicitRule; norm_num)⟩

/-- Priority label from an impact score
(`ClimateMLEngine._get_priority`, ml_engine.py lines 671-678). -/
def getPriority (impact_score : ℚ) : String :=
  if 0.8 < impact_score then "high"
  else if 0.6 < impact_score then "medium"
  else "low"

/-- The recommended-scale record built by
`ClimateMLEngine._calculate_recommended_scale` (ml_engine.py lines
649-669).  Note the amount is clamped to [10, 1000] but the estimated
cost uses the unclamped scale. -/
structure RecommendedScale where
  amount : ℚ
  unit : String
  estimated_cost : ℚ
deriving DecidableEq, Repr

/-- Model of `ClimateMLEngine._calculate_recommended_scale`. -/
def calculateRecommendedScale (intervention_type : String)
    (d : ClimateData) : RecommendedScale :=
  let scale : ℚ :=
    if intervention_type = "biochar" then 100 * (d.biomass_density.getD 0 / 50)
    else if intervention_type = "DAC" then
      100 * (d.co2_concentration.getD 415 / 400)
    else if intervention_type = "afforestation" then
      100 * (d.biomass_density.getD 0 / 30)
    else 100
  { amount := max 10 (min 1000 scale),
    unit := if intervention_type = "biochar" ∨ intervention_type = "DAC"
      then "tonnes_co2" else "hectares",
    estimated_cost := scale * d.cost_per_tonne.getD 100 }

/-- The rule-based impact score of `rank_interventions` (ml_engine.py
lines 604-616), the branch taken when no boosting model has been fitted
(model_count = 0). -/
def ruleBasedImpactScore (d : ClimateData) (intervention_type : String) : ℚ :=
  if intervention_type = "biochar" ∧ 30 < d.biomass_density.getD 0 then 0.8
  else if intervention_type = "DAC" ∧ 420 < d.co2_concentration.getD 415
    then 0.9
  else if intervention_type = "afforestation" ∧ 20 < d.biomass_density.getD 0
    then 0.7
  else 0.5

/-- One entry of the rankings list built by `rank_interventions`
(ml_engine.py lines 623-629). -/
structure RankEntry where
  intervention_type : String
  impact_score : ℚ
  cost_efficiency : ℚ
  recommended_scale : RecommendedScale
  deployment_priority : String
deriving DecidableEq, Repr

/-- The per-type entry of `rank_interventions` in the rule-based
(untrained) branch: cost_efficiency = impact_score /
max(0.1, cost_per_tonne/100). -/
def rankEntry (d : ClimateData) (intervention_type : String) : RankEntry :=
  let impact := ruleBasedImpactScore d intervention_type
  { intervention_type := intervention_type,
    impact_score := impact,
    cost_efficiency := impact / max 0.1 (d.cost_per_tonne.getD 100 / 100),
    recommended_scale := calculateRecommendedScale intervention_type d,
    deployment_priority := getPriority impact }

/-- Insertion step of a stable descending sort by a rational key: the new
element goes before the first element with a strictly smaller key and
after elements with an equal key.  Together with `stableSortByDesc` this
models Python's stable `list.sort(key=..., reverse=True)` (ml_engine.py
line 632, spatial_engine.py line 436). -/
def insertByDesc {α : Type} (f : α → ℚ) (x : α) : List α → List α
  | [] => [x]
  | y :: ys => if f y < f x then x :: y :: ys else y :: insertByDesc f x ys

/-- Stable descending sort by a rational key (model of Python's stable
`list.sort(key=..., reverse=True)`). -/
def stableSortByDesc {α : Type} (f : α → ℚ) (l : List α) : List α :=
  l.foldl (fun acc x => insertByDesc f x acc) []

theorem insertByDesc_perm {α : Type} (f : α → ℚ) (x : α) (l : List α) :
    (insertByDesc f x l).Perm (x :: l) := by
  induction l with
  | nil => rfl
  | cons y ys ih =>
    simp only [insertByDesc]
    split
    · exact List.Perm.refl _
    · exact (ih.cons y).trans (List.Perm.swap x y ys)

theorem insertByDesc_pairwise {α : Type} (f : α → ℚ) (x : α) (l : List α)
    (h : l.Pairwise fun u v => f v ≤ f u) :
    (insertByDesc f x l).Pairwise fun u v => f v ≤ f u := by
  induction l with
  | nil => simp [insertByDesc]
  | cons y ys ih =>
    rcases List.pairwise_cons.mp h with ⟨hy, hys⟩
    by_cases hxy : f y < f x
    · simp only [insertByDesc, if_pos hxy]
      refine List.pairwise_cons.mpr ⟨?_, h⟩
      intro z hz
      rcases List.mem_cons.mp hz with hz | hz
      · subst hz; exact le_of_lt hxy
      · exact le_trans (hy z hz) (le_of_lt hxy)
    · simp only [insertByDesc, if_neg hxy]
      refine List.pairwise_cons.mpr ⟨?_, ih hys⟩
      intro z hz
      rcases List.mem_cons.mp ((insertByDesc_perm f x ys).mem_iff.mp hz)
        with hz | hz
      · subst hz; exact le_of_not_lt hxy
      · exact hy z hz

theorem stableSortByDesc_perm {α : Type} (f : α → ℚ) (l : List α) :
    (stableSortByDesc f l).Perm l := by
  suffices h : ∀ (l acc : List α),
      (l.foldl (fun acc x => insertByDesc f x acc) acc).Perm (acc ++ l) by
    simpa using h l []
  intro l
  induction l with
  | nil => intro acc; simp
  | cons x l ih =>
    intro acc
    simp only [List.foldl_cons]
    have h1 := ih (insertByDesc f x acc)
    have h2 : (insertByDesc f x acc ++ l).Perm ((x :: acc) ++ l) :=
      (insertByDesc_perm f x acc).append_right l
    have h3 : ((x :: acc) ++ l).Perm (acc ++ x :: l) := List.perm_middle.symm
    exact (h1.trans h2).trans h3

theorem stableSortByDesc_pairwise {α : Type} (f : α → ℚ) (l : List α) :
    (stableSortByDesc f l).Pairwise fun u v => f v ≤ f u := by
  suffices h : ∀ (l acc : List α),
      (acc.Pairwise fun u v => f v ≤ f u) →
      ((l.foldl (fun acc x => insertByDesc f x acc) acc).Pairwise
        fun u v => f v ≤ f u) from h l [] (by simp)
  intro l
  induction l with
  | nil => intro acc hacc; simpa using hacc
  | cons x l ih =>
    intro acc hacc
    exact ih _ (insertByDesc_pairwise f x acc hacc)

/-- Code-point lexicographic order on strings, as Python compares str
values (used only to state the name-tie-break part of claim C6). -/
def strLtChars : List Char → List Char → Bool
  | [], [] => false
  | [], _ :: _ => true
  | _ :: _, [] => false
  | a :: as, b :: bs =>
    if a < b then true else if b < a then false else strLtChars as bs

/-- Code-point lexicographic order on strings. -/
def strLt (s t : String) : Bool := strLtChars s.data t.data

/-- A candidate site as generated by
`SpatialEngine._generate_candidate_sites` (spatial_engine.py lines
300-330); the `efficiency` field is the one added to the dict by
`_optimize_deployment` (line 434), zero until then. -/
structure Site where
  latitude : ℚ
  longitude : ℚ
  suitability_score : ℚ
  estimated_cost : ℚ
  estimated_impact : ℚ
  efficiency : ℚ := 0
deriving DecidableEq, Repr

/-- First loop of `SpatialEngine._optimize_deployment` (spatial_engine.py
lines 433-434): efficiency = estimated_impact / max(1, estimated_cost). -/
def withEfficiency (s : Site) : Site :=
  { s with efficiency := s.estimated_impact / max 1 s.estimated_cost }

/-- Selection loop of `SpatialEngine._optimize_deployment`
(spatial_engine.py lines 439-447): scan the sites in order, adding a site
and deducting its cost whenever its cost fits in the remaining budget;
an unaffordable site is skipped and the scan continues. -/
def selectSites : List Site → ℚ → List Site
  | [], _ => []
  | s :: rest, remaining_budget =>
    if s.estimated_cost ≤ remaining_budget then
      s :: selectSites rest (remaining_budget - s.estimated_cost)
    else
      selectSites rest remaining_budget

/-- Model of `SpatialEngine._optimize_deployment` (spatial_engine.py lines
427-447): annotate each site with its efficiency, stably sort by
efficiency descending, then run the budget-selection scan. -/
def optimizeDeployment (sites : List Site) (total_budget : ℚ) : List Site :=
  selectSites (stableSortByDesc Site.efficiency (sites.map withEfficiency))
    total_budget

/-- Total estimated cost of a list of sites. -/
def sumCost (l : List Site) : ℚ := (l.map Site.estimated_cost).sum

theorem selectSites_sum_le (l : List Site) :
    ∀ b : ℚ, 0 ≤ b → sumCost (selectSites l b) ≤ b := by
  induction l with
  | nil => intro b hb; simpa [selectSites, sumCost] using hb
  | cons s rest ih =>
    intro b hb
    by_cases h : s.estimated_cost ≤ b
    · have hrec := ih (b - s.estimated_cost) (by linarith)
      simp only [selectSites, if_pos h, sumCost, List.map_cons, List.sum_cons]
      unfold sumCost at hrec
      linarith
    · simpa only [selectSites, if_neg h] using ih b hb

/-- C1: for every list of candidate sites with positive estimated costs
and every non-negative budget, the total estimated cost of the deployment
plan selected by `_optimize_deployment` never exceeds the budget. -/
theorem c1_budget_invariant (sites : List Site) (total_budget : ℚ)
    (_hpos : ∀ s ∈ sites, 0 < s.estimated_cost) (hb : 0 ≤ total_budget) :
    sumCost (optimizeDeployment sites total_budget) ≤ total_budget :=
  selectSites_sum_le _ total_budget hb

/-- Witness for C1 at a concrete three-site input and budget 150000. -/
theorem c1_budget_witness :
    (∀ s ∈ [(⟨1, 0, 1, 100000, 1000, 0⟩ : Site), ⟨2, 0, 1, 100000, 500, 0⟩,
        ⟨3, 0, 1, 50000, 200, 0⟩], 0 < s.estimated_cost) ∧
    (0 : ℚ) ≤ 150000 ∧
    sumCost (optimizeDeployment [⟨1, 0, 1, 100000, 1000, 0⟩,
        ⟨2, 0, 1, 100000, 500, 0⟩, ⟨3, 0, 1, 50000, 200, 0⟩] 150000) ≤
      150000 :=
  ⟨by norm_num, by norm_num,
    c1_budget_invariant _ _ (by norm_num) (by norm_num)⟩

/-- C9 counterexample: sites A (cost 100000, impact 1000), B (cost
100000, impact 500), C (cost 50000, impact 200) have efficiency order
A, B, C; with budget 150000 the scan selects A, finds B unaffordable
(100000 > 150000 - 100000), yet still adds the later site C — the scan
does not stop at the first unaffordable site. -/
theorem c9_scan_does_not_stop :
    (stableSortByDesc Site.efficiency
        ([(⟨1, 0, 1, 100000, 1000, 0⟩ : Site), ⟨2, 0, 1, 100000, 500, 0⟩,
          ⟨3, 0, 1, 50000, 200, 0⟩].map withEfficiency)).map Site.latitude
      = [1, 2, 3] ∧
    (150000 : ℚ) - 100000 < 100000 ∧
    (optimizeDeployment [⟨1, 0, 1, 100000, 1000, 0⟩,
        ⟨2, 0, 1, 100000, 500, 0⟩, ⟨3, 0, 1, 50000, 200, 0⟩]
      150000).map Site.latitude = [1, 3] := by
  refine ⟨?_, by norm_num, ?_⟩ <;>
    norm_num [optimizeDeployment, stableSortByDesc, insertByDesc,
      withEfficiency, selectSites]

/-- C9 amended: the selection scan of `_optimize_deployment` never stops
early.  Appending one more site to the scanned list leaves the earlier
selections unchanged and adds the new site exactly when its cost fits in
the budget left over by those selections — even if sites before it were
skipped as unaffordable. -/
theorem c9_select_scans_whole_list (l : List Site) (s : Site) :
    ∀ b : ℚ, selectSites (l ++ [s]) b =
      selectSites l b ++
        (if s.estimated_cost ≤ b - sumCost (selectSites l b) then [s]
         else []) := by
  induction l with
  | nil =>
    intro b
    simp only [List.nil_append, selectSites, sumCost, List.map_nil,
      List.sum_nil, sub_zero]
  | cons a l ih =>
    intro b
    by_cases h : a.estimated_cost ≤ b
    · have hstep : selectSites ((a :: l) ++ [s]) b
          = a :: selectSites (l ++ [s]) (b - a.estimated_cost) := by
        simp [selectSites, h]
      have hsel : selectSites (a :: l) b
          = a :: selectSites l (b - a.estimated_cost) := by
        simp [selectSites, h]
      have hsum : sumCost (a :: selectSites l (b - a.estimated_cost))
          = a.estimated_cost +
            sumCost (selectSites l (b - a.estimated_cost)) := by
        simp [sumCost]
      have harith : b - a.estimated_cost -
          sumCost (selectSites l (b - a.estimated_cost)) =
          b - (a.estimated_cost +
            sumCost (selectSites l (b - a.estimated_cost))) := by ring
      rw [hstep, ih, hsel, List.cons_append, hsum, harith]
    · have hstep : selectSites ((a :: l) ++ [s]) b
          = selectSites (l ++ [s]) b := by
        simp [selectSites, h]
      have hsel : selectSites (a :: l) b = selectSites l b := by
        simp [selectSites, h]
      rw [hstep, ih, hsel]

/-- The numpy transcendental routines used by the source (np.sin, np.cos,
np.exp, np.sqrt and the constant np.pi), modelled as an arbitrary bundle
of rational functions; every theorem below holds for every
interpretation of the bundle. -/
structure MathFns where
  pi : ℚ
  sin : ℚ → ℚ
  cos : ℚ → ℚ
  exp : ℚ → ℚ
  sqrt : ℚ → ℚ

/-- A concrete interpretation of the transcendental bundle used by
witnesses and counterexamples (the properties at stake never depend on
the values these functions take). -/
def zeroFns : MathFns := ⟨0, fun _ => 0, fun _ => 0, fun _ => 0, fun _ => 0⟩

/-- Index of a value in a fitted scikit-learn LabelEncoder class list
(the position in the sorted class array), none if the value is not a
class. -/
def encoderIndex (classes : List String) (v : String) : Option ℕ :=
  match classes with
  | [] => none
  | c :: cs => if c = v then some 0 else (encoderIndex cs v).map (· + 1)

/-- Model of `LabelEncoder.transform` on one value: the class index, or the
ValueError scikit-learn raises on a previously unseen label. -/
def encoderTransform (classes : List String) (v : String) : Except String ℕ :=
  match encoderIndex classes v with
  | some i => .ok i
  | none => .error v

/-- Classes of the intervention_type encoder as fitted by
`ClimateMLEngine._initialize_training_data` (ml_engine.py lines 122, 126):
scikit-learn stores the fitted values sorted by code point.  Note the
list does not contain the string used as the default for an absent
intervention_type field. -/
def initInterventionClasses : List String :=
  ["DAC", "afforestation", "biochar", "enhanced_weathering", "monitoring"]

/-- Classes of the vegetation_type encoder as fitted by
`_initialize_training_data` (ml_engine.py lines 123, 127), sorted; it
does not contain the default used for an absent vegetation_type field. -/
def initVegetationClasses : List String :=
  ["boreal_forest", "desert", "grassland", "temperate_forest",
   "tropical_forest", "tundra"]

/-- Classes of the climate_zone encoder as fitted by
`_initialize_training_data` (ml_engine.py lines 124, 128), sorted; it
does contain "temperate", the default for an absent climate_zone field. -/
def initClimateZoneClasses : List String :=
  ["arctic", "boreal", "desert", "mediterranean", "temperate", "tropical"]

/-- The three fitted label encoders of `ClimateMLEngine`. -/
structure LabelEncoders where
  intervention_type : List String
  vegetation_type : List String
  climate_zone : List String

/-- The label encoders in the state left by
`ClimateMLEngine._initialize_training_data`, the state in which every
`prepare_features` call runs (the engine constructor always fits them). -/
def initEncoders : LabelEncoders :=
  ⟨initInterventionClasses, initVegetationClasses, initClimateZoneClasses⟩

/-- The parts of `datetime.now()` that `prepare_features` reads: the
calendar month, the day of the month and the day of the year
(tm_yday). -/
structure Today where
  month : ℕ
  day : ℕ
  yday : ℕ
deriving DecidableEq, Repr

theorem Today.ext_eq {t t' : Today} (hm : t.month = t'.month)
    (hd : t.day = t'.day) (hy : t.yday = t'.yday) : t = t' := by
  cases t; cases t'; simp_all

/-- Model of `ClimateMLEngine.prepare_features` (ml_engine.py lines 409-502): the
29-entry feature vector in source order — geographic (3), atmospheric
(10), biomass (2), trends (3), interaction terms (4), seasonal (4) and
the three categorical codes.  The categorical fields default to
"unknown", "unknown" and "temperate" when absent and are encoded through
the fitted label encoders; a value outside an encoder's classes is the
ValueError raised by scikit-learn's transform.  The call-time clock read
by the source (`datetime.now()`) is passed explicitly as `today`. -/
def prepareFeatures (M : MathFns) (enc : LabelEncoders) (today : Today)
    (d : ClimateData) : Except String (List ℚ) := do
  let co2 := d.co2_concentration.getD 415
  let biomass := d.biomass_density.getD 0
  let temp_anomaly := d.temperature_anomaly.getD 0
  let humidity := d.humidity.getD 50
  let ty ← encoderTransform enc.intervention_type
    (d.intervention_type.getD "unknown")
  let veg ← encoderTransform enc.vegetation_type
    (d.vegetation_type.getD "unknown")
  let zone ← encoderTransform enc.climate_zone
    (d.climate_zone.getD "temperate")
  return [d.latitude.getD 0, d.longitude.getD 0, |d.latitude.getD 0|,
    d.temperature.getD 15, temp_anomaly, co2, humidity,
    d.pressure.getD 1013, d.wind_speed.getD 5, d.precipitation.getD 0,
    d.aerosol_optical_depth.getD 0.1, d.solar_irradiance.getD 1000,
    d.albedo.getD 0.3,
    biomass, d.carbon_storage_potential.getD 0,
    d.temperature_trend.getD 0, d.co2_trend.getD 0,
    d.precipitation_trend.getD 0,
    co2 - 400, biomass * temp_anomaly, (co2 - 400) * biomass,
    humidity * biomass / 100,
    (today.month : ℚ), (today.day : ℚ),
    M.sin (2 * M.pi * today.yday / 365), M.cos (2 * M.pi * today.yday / 365),
    (ty : ℚ), (veg : ℚ), (zone : ℚ)]

/-- C3: on the all-missing observation, `prepare_features` fails with the
unseen-label ValueError for the default value "unknown" of the
intervention_type field, because the encoders fitted by
`_initialize_training_data` do not contain "unknown" — even though the
climate_zone default "temperate" is encodable (index 4).  This holds for
every clock value and every interpretation of the transcendental
bundle. -/
theorem c3_all_missing_observation_fails (M : MathFns) (today : Today) :
    prepareFeatures M initEncoders today {} = .error "unknown" ∧
    encoderTransform initClimateZoneClasses "temperate" = .ok 4 := by
  exact ⟨rfl, rfl⟩

/-- A concrete observation whose three categorical fields are all
encodable (used by the C5 theorems). -/
def obsBiochar : ClimateData :=
  { intervention_type := some "biochar",
    vegetation_type := some "grassland",
    climate_zone := some "tropical" }

/-- C5 counterexample: the same observation encoded with the same
encoders under two different clock readings (January 1st versus
February 1st) yields different feature vectors — the vector depends on
the call-time clock, not only on the observation and the encoding
table. -/
theorem c5_encode_reads_clock :
    prepareFeatures zeroFns initEncoders ⟨1, 1, 1⟩ obsBiochar ≠
      prepareFeatures zeroFns initEncoders ⟨2, 1, 32⟩ obsBiochar := by
  norm_num +decide [prepareFeatures, encoderTransform, encoderIndex,
    initEncoders, initInterventionClasses, initVegetationClasses,
    initClimateZoneClasses, obsBiochar, zeroFns, Except.instMonad,
    Except.bind, Except.map, Except.pure]

/-- C5 amended: `prepare_features` is deterministic in the observation,
the encoding table and the clock reading: two runs that agree on the
observation, the encoders, the transcendental bundle and the
month/day/day-of-year of the clock produce identical results. -/
theorem c5_encode_deterministic (M : MathFns) (enc : LabelEncoders)
    (d : ClimateData) (t t' : Today) (hm : t.month = t'.month)
    (hd : t.day = t'.day) (hy : t.yday = t'.yday) :
    prepareFeatures M enc t d = prepareFeatures M enc t' d := by
  rw [Today.ext_eq hm hd hy]

/-- Witness for the amended C5 theorem at a concrete observation and
clock reading. -/
theorem c5_deterministic_witness :
    (⟨3, 14, 73⟩ : Today).month = (⟨3, 14, 73⟩ : Today).month ∧
    (⟨3, 14, 73⟩ : Today).day = (⟨3, 14, 73⟩ : Today).day ∧
    (⟨3, 14, 73⟩ : Today).yday = (⟨3, 14, 73⟩ : Today).yday ∧
    prepareFeatures zeroFns initEncoders ⟨3, 14, 73⟩ obsBiochar =
      prepareFeatures zeroFns initEncoders ⟨3, 14, 73⟩ obsBiochar :=
  ⟨rfl, rfl, rfl,
    c5_encode_deterministic zeroFns initEncoders obsBiochar _ _ rfl rfl rfl⟩

theorem exceptBind_ok {ε α β : Type} (a : α) (f : α → Except ε β) :
    (Except.ok a : Except ε α) >>= f = f a := rfl

theorem exceptMap_ok {ε α β : Type} (g : α → β) (a : α) :
    (g <$> (Except.ok a : Except ε α)) = Except.ok (g a) := rfl

theorem exceptPure_eq_ok {ε α : Type} (a : α) :
    (pure a : Except ε α) = Except.ok a := rfl

/-- The per-candidate loop body of `rank_interventions` (ml_engine.py
lines 586-629): copy the observation, write the candidate type into it,
call `prepare_features` unconditionally (line 591) — an unencodable
categorical value makes that call raise — and otherwise build the
entry.  In the rule-based (untrained) branch the returned feature vector
itself is not used further. -/
def buildRankEntries (M : MathFns) (enc : LabelEncoders) (today : Today)
    (d : ClimateData) : List String → Except String (List RankEntry)
  | [] => .ok []
  | ty :: rest =>
    match prepareFeatures M enc today { d with intervention_type := some ty }
      with
    | .error e => .error e
    | .ok _ =>
      match buildRankEntries M enc today d rest with
      | .error e => .error e
      | .ok entries => .ok (rankEntry d ty :: entries)

/-- The outcome of `rank_interventions`: the success dict with the sorted
rankings, or the except-handler dict with success False and an empty
rankings list (ml_engine.py lines 642-647). -/
inductive RankOutcome where
  | ok (rankings : List RankEntry)
  | failure (error : String)
deriving Repr

/-- The rankings list of the returned dict (empty in the failure dict). -/
def RankOutcome.rankings : RankOutcome → List RankEntry
  | .ok rs => rs
  | .failure _ => []

/-- Model of `ClimateMLEngine.rank_interventions` (ml_engine.py lines
575-647) in the rule-based (untrained) branch: one entry per candidate
type, each preceded by the unconditional `prepare_features` call on the
modified observation, then Python's stable descending sort by impact
score; an exception from encoding yields the failure dict instead. -/
def rankInterventions (M : MathFns) (enc : LabelEncoders) (today : Today)
    (d : ClimateData) (intervention_types : List String) : RankOutcome :=
  match buildRankEntries M enc today d intervention_types with
  | .ok rankings =>
    .ok (stableSortByDesc (fun e => e.impact_score) rankings)
  | .error e => .failure e

theorem buildRankEntries_ok (M : MathFns) (enc : LabelEncoders)
    (today : Today) (d : ClimateData) :
    ∀ (intervention_types : List String) (es : List RankEntry),
      buildRankEntries M enc today d intervention_types = .ok es →
      es = intervention_types.map (rankEntry d) := by
  intro types
  induction types with
  | nil =>
    intro es h
    simp only [buildRankEntries] at h
    rw [List.map_nil, ← Except.ok.inj h]
  | cons ty rest ih =>
    intro es h
    simp only [buildRankEntries] at h
    cases hp : prepareFeatures M enc today
        { d with intervention_type := some ty } with
    | error e => rw [hp] at h; exact absurd h (by simp)
    | ok v =>
      rw [hp] at h
      cases hb : buildRankEntries M enc today d rest with
      | error e => rw [hb] at h; exact absurd h (by simp)
      | ok entries =>
        rw [hb] at h
        rw [List.map_cons, ← Except.ok.inj h, ih entries hb]

/-- C6 amended: whenever `rank_interventions` succeeds (every candidate
type and the observation's categorical fields encode without error), the
returned rankings are sorted in descending (non-increasing) order of
impact_score and are a permutation of the one entry built per candidate
type; entries with equal impact_score keep the order of the input
candidate list under the stable sort, not ascending name order.  When
encoding fails the source instead returns the failure dict with an empty
rankings list. -/
theorem c6_rankings_sorted_desc (M : MathFns) (enc : LabelEncoders)
    (today : Today) (d : ClimateData) (intervention_types : List String)
    (rs : List RankEntry)
    (h : rankInterventions M enc today d intervention_types =
      RankOutcome.ok rs) :
    (rs.Pairwise fun u v => v.impact_score ≤ u.impact_score) ∧
    rs.Perm (intervention_types.map (rankEntry d)) := by
  unfold rankInterventions at h
  cases hb : buildRankEntries M enc today d intervention_types with
  | error e => rw [hb] at h; exact absurd h (by simp)
  | ok entries =>
    rw [hb] at h
    rw [← RankOutcome.ok.inj h,
      ← buildRankEntries_ok M enc today d intervention_types entries hb]
    exact ⟨stableSortByDesc_pairwise _ _, stableSortByDesc_perm _ _⟩

/-- The rankings of a concrete successful `rank_interventions` run (the
fully categorical observation `obsBiochar`, candidates biochar and DAC),
used by the C6 witness and counterexample. -/
def rankingsBiochar : List RankEntry :=
  (rankInterventions zeroFns initEncoders ⟨1, 1, 1⟩ obsBiochar
    ["biochar", "DAC"]).rankings

theorem rankingsBiochar_ok :
    rankInterventions zeroFns initEncoders ⟨1, 1, 1⟩ obsBiochar
      ["biochar", "DAC"] = .ok rankingsBiochar := by
  have h : ∃ rs, rankInterventions zeroFns initEncoders ⟨1, 1, 1⟩ obsBiochar
      ["biochar", "DAC"] = .ok rs := by
    norm_num +decide [rankInterventions, buildRankEntries, prepareFeatures,
      encoderTransform, encoderIndex, initEncoders, initInterventionClasses,
      initVegetationClasses, initClimateZoneClasses, obsBiochar, zeroFns,
      exceptBind_ok, exceptMap_ok, exceptPure_eq_ok]
  obtain ⟨rs, hrs⟩ := h
  rw [hrs, RankOutcome.ok.injEq, rankingsBiochar, hrs]
  rfl

/-- C6 counterexample: a successful run on an observation whose biomass
and CO2 defaults give both candidates the tie score 0.5 —
`rank_interventions` returns the entries in input order [biochar, DAC];
ascending intervention-type name order would put DAC first (DAC sorts
before biochar by code point), so equal-score entries are not in
ascending name order. -/
theorem c6_ties_keep_input_order :
    rankInterventions zeroFns initEncoders ⟨1, 1, 1⟩ obsBiochar
      ["biochar", "DAC"] = .ok rankingsBiochar ∧
    rankingsBiochar.map RankEntry.intervention_type = ["biochar", "DAC"] ∧
    (rankEntry obsBiochar "biochar").impact_score
      = (rankEntry obsBiochar "DAC").impact_score ∧
    strLt "DAC" "biochar" = true := by
  refine ⟨rankingsBiochar_ok, ?_, ?_, by decide⟩
  · norm_num +decide [rankingsBiochar, rankInterventions, buildRankEntries,
      prepareFeatures, encoderTransform, encoderIndex, initEncoders,
      initInterventionClasses, initVegetationClasses, initClimateZoneClasses,
      obsBiochar, zeroFns, stableSortByDesc, insertByDesc, rankEntry,
      ruleBasedImpactScore, calculateRecommendedScale, getPriority,
      RankOutcome.rankings, exceptBind_ok, exceptMap_ok, exceptPure_eq_ok]
  · norm_num [rankEntry, ruleBasedImpactScore, obsBiochar]

/-- Witness for the amended C6 theorem at the concrete successful run of
`rankingsBiochar`. -/
theorem c6_sorted_witness :
    rankInterventions zeroFns initEncoders ⟨1, 1, 1⟩ obsBiochar
      ["biochar", "DAC"] = .ok rankingsBiochar ∧
    (rankingsBiochar.Pairwise fun u v => v.impact_score ≤ u.impact_score) ∧
    rankingsBiochar.Perm (["biochar", "DAC"].map (rankEntry obsBiochar)) :=
  ⟨rankingsBiochar_ok,
    c6_rankings_sorted_desc zeroFns initEncoders ⟨1, 1, 1⟩ obsBiochar
      ["biochar", "DAC"] rankingsBiochar rankingsBiochar_ok⟩

/-- The two effectiveness constants of one intervention type that
`_simulation_mode` reads (climate_simulation.py lines 175-196; the
per-type resource-requirement entries of the same dict are never read by
the simulation). -/
structure EffFactors where
  co2_reduction_factor : ℚ
  temp_cooling_factor : ℚ
deriving DecidableEq, Repr, Inhabited

/-- The effectiveness table of `_simulation_mode`
(climate_simulation.py lines 175-196). -/
def effectivenessFactors : List (String × EffFactors) :=
  [("biochar", ⟨0.8, 0.3⟩), ("DAC", ⟨0.95, 0.4⟩),
   ("afforestation", ⟨0.6, 0.2⟩), ("enhanced_weathering", ⟨0.7, 0.25⟩)]

/-- The biochar row of the effectiveness table, the fallback row for an
unknown intervention type. -/
def biocharFactors : EffFactors := ⟨0.8, 0.3⟩

/-- Model of `effectiveness_factors.get(intervention_type,
effectiveness_factors['biochar'])` (climate_simulation.py line 198). -/
def factorsFor (intervention_type : String) : EffFactors :=
  (effectivenessFactors.lookup intervention_type).getD biocharFactors

/-- The fixed urban centers of `_calculate_regional_multiplier`
(climate_simulation.py lines 297-303). -/
def urbanCenters : List (ℚ × ℚ) :=
  [(40.7, -74), (34.0, -118), (51.5, -0.1), (35.7, 139.7), (39.9, 116.4)]

/-- Model of `ClimateSimulationService._calculate_regional_multiplier`
(climate_simulation.py lines 276-311): latitude band, longitude band and
urban-proximity adjustments, multiplied onto a base of 1. -/
def regionalMultiplier (M : MathFns) (latitude longitude : ℚ) : ℚ :=
  (if |latitude| < 10 then 1.2
   else if |latitude| < 30 then 1.1
   else if 60 < |latitude| then 0.8 else 1) *
  (if |longitude| < 60 then 1.0
   else if |longitude| < 120 then 1.1 else 0.9) *
  (if urbanCenters.any fun c =>
      decide (M.sqrt ((latitude - c.1) ^ 2 + (longitude - c.2) ^ 2) < 5)
   then 1.3 else 1)

/-- One monthly record of the simulation time series
(climate_simulation.py lines 226-233). -/
structure MonthRecord where
  month : ℕ
  co2_reduction_ppm : ℚ
  temperature_change_celsius : ℚ
  cumulative_co2_reduction : ℚ
  cumulative_temp_cooling : ℚ
  confidence : ℚ
deriving DecidableEq, Repr, Inhabited

/-- One iteration of the monthly loop of `_simulation_mode`
(climate_simulation.py lines 211-233): seasonal and cumulative factors,
one noise draw applied to both instantaneous values, the CO2 value
clamped below at 0 and the temperature change forced non-positive by
negated absolute value. -/
def monthRecord (M : MathFns) (co2_reduction temp_cooling : ℚ)
    (noise : ℕ → ℚ) (month : ℕ) : MonthRecord :=
  let seasonal_factor := 1 + 0.2 * M.sin (2 * M.pi * month / 12)
  let cumulative_factor := 1 - M.exp (-(month : ℚ) / 6)
  let monthly_co2_reduction := co2_reduction * seasonal_factor *
    cumulative_factor * (1 + noise month)
  let monthly_temp_cooling := temp_cooling * seasonal_factor *
    cumulative_factor * (1 + noise month)
  { month := month + 1,
    co2_reduction_ppm := max 0 monthly_co2_reduction,
    temperature_change_celsius := -|monthly_temp_cooling|,
    cumulative_co2_reduction := co2_reduction * cumulative_factor,
    cumulative_temp_cooling := temp_cooling * cumulative_factor,
    confidence := max 0.7 (1 - month * 0.02) }

/-- The full monthly series of `_simulation_mode` for months
0 .. duration-1. -/
def monthlyProgress (M : MathFns) (co2_reduction temp_cooling : ℚ)
    (duration_months : ℕ) (noise : ℕ → ℚ) : List MonthRecord :=
  (List.range duration_months).map (monthRecord M co2_reduction temp_cooling
    noise)

/-- The data of the success dict returned by `_simulation_mode`
(climate_simulation.py lines 240-274), flattened. -/
structure SimPayload where
  intervention_type : String
  latitude : ℚ
  longitude : ℚ
  scale_amount : ℚ
  duration_months : ℕ
  monthly_progress : List MonthRecord
  total_co2_reduction_ppm : ℚ
  max_temperature_cooling_celsius : ℚ
  effectiveness_score : ℚ
  cost_efficiency : ℚ
  model_confidence : ℚ
  base_temperature : ℚ
  base_co2_concentration : ℚ
  regional_multiplier : ℚ
  effectiveness_factors : EffFactors
deriving DecidableEq, Repr, Inhabited

/-- Model of `ClimateSimulationService._simulation_mode` (climate_simulation.py
lines 159-274).  A zero duration makes the Python `max()` over the empty
monthly series raise, and a zero scale makes the effectiveness-score
division raise; both are modelled as errors.  For a non-empty series of
the non-negative values |temperature_change_celsius| the Python `max()`
equals a fold of `max` seeded with 0. -/
def simulationMode (M : MathFns) (latitude longitude : ℚ)
    (intervention_type : String) (scale_amount : ℚ)
    (duration_months : ℕ) (noise : ℕ → ℚ) : Except String SimPayload :=
  let factors := factorsFor intervention_type
  let regional_multiplier := regionalMultiplier M latitude longitude
  let co2_reduction := scale_amount * factors.co2_reduction_factor *
    regional_multiplier
  let temp_cooling := scale_amount * factors.temp_cooling_factor * 0.01 *
    regional_multiplier
  let monthly := monthlyProgress M co2_reduction temp_cooling
    duration_months noise
  let total := (monthly.map MonthRecord.co2_reduction_ppm).sum
  if duration_months = 0 then .error "max arg is an empty sequence"
  else if scale_amount = 0 then .error "float division by zero"
  else .ok
    { intervention_type := intervention_type,
      latitude := latitude,
      longitude := longitude,
      scale_amount := scale_amount,
      duration_months := duration_months,
      monthly_progress := monthly,
      total_co2_reduction_ppm := total,
      max_temperature_cooling_celsius :=
        (monthly.map fun r => |r.temperature_change_celsius|).foldr max 0,
      effectiveness_score := min 1 (total / (scale_amount * 0.5)),
      cost_efficiency := total / max 1 (scale_amount * 0.1),
      model_confidence :=
        (monthly.map MonthRecord.confidence).sum / duration_months,
      base_temperature := 15 - 0.6 * |latitude|,
      base_co2_concentration := 415,
      regional_multiplier := regional_multiplier,
      effectiveness_factors := factors }

/-- The outcome of `simulate_climate_impact`: either the success dict of
a simulation or the failure dict of the exception handler
(climate_simulation.py lines 87-92). -/
inductive SimResult where
  | ok (p : SimPayload)
  | failure (error simulation_mode : String)
deriving DecidableEq, Repr

/-- The boolean under the success key of the returned dict. -/
def SimResult.success : SimResult → Bool
  | .ok _ => true
  | .failure _ _ => false

/-- Model of `ClimateSimulationService.simulate_climate_impact`
(climate_simulation.py lines 67-92) with Earth2Studio unavailable (the
repository ships no model, so `self.model` is None and every call takes
the `_simulation_mode` path); an exception inside becomes the failure
dict with simulation_mode "fallback". -/
def simulateClimateImpact (M : MathFns) (latitude longitude : ℚ)
    (intervention_type : String) (scale_amount : ℚ)
    (duration_months : ℕ) (noise : ℕ → ℚ) : SimResult :=
  match simulationMode M latitude longitude intervention_type scale_amount
      duration_months noise with
  | .ok p => .ok p
  | .error e => .failure e "fallback"

/-- Every key appearing anywhere in the dict returned by
`_simulation_mode` (climate_simulation.py lines 240-274), including all
nested dicts and the monthly records. -/
def simulationModeKeys : List String :=
  ["success", "simulation_mode", "intervention_type", "location", "lat",
   "lon", "scale_amount", "duration_months", "results", "monthly_progress",
   "month", "co2_reduction_ppm", "temperature_change_celsius",
   "cumulative_co2_reduction", "cumulative_temp_cooling", "confidence",
   "summary", "total_co2_reduction_ppm", "max_temperature_cooling_celsius",
   "average_monthly_impact", "temperature_cooling_celsius",
   "effectiveness_score", "cost_efficiency", "regional_effects",
   "local_impact_radius_km", "downwind_effects_km", "ocean_influence",
   "urban_heat_island_moderation", "model_confidence",
   "simulation_parameters", "base_temperature", "base_co2_concentration",
   "regional_multiplier", "effectiveness_factors", "co2_reduction_factor",
   "temp_cooling_factor", "biomass_requirement", "timestamp"]

theorem simulationMode_monthly (M : MathFns) (latitude longitude : ℚ)
    (intervention_type : String) (scale_amount : ℚ)
    (duration_months : ℕ) (noise : ℕ → ℚ) (p : SimPayload)
    (hp : simulationMode M latitude longitude intervention_type scale_amount
      duration_months noise = .ok p) :
    p.monthly_progress = monthlyProgress M
      (scale_amount * (factorsFor intervention_type).co2_reduction_factor *
        regionalMultiplier M latitude longitude)
      (scale_amount * (factorsFor intervention_type).temp_cooling_factor *
        0.01 * regionalMultiplier M latitude longitude)
      duration_months noise := by
  simp only [simulationMode] at hp
  split_ifs at hp
  exact congrArg SimPayload.monthly_progress (Except.ok.inj hp).symm

/-- C8: every monthly record produced by the simulation mode has a
non-positive temperature change (the source negates an absolute value),
for every location, intervention type, scale, duration, noise sequence
(including draws below -1) and interpretation of the transcendental
bundle. -/
theorem c8_cooling_nonpositive (M : MathFns) (latitude longitude : ℚ)
    (intervention_type : String) (scale_amount : ℚ)
    (duration_months : ℕ) (noise : ℕ → ℚ) (p : SimPayload)
    (hp : simulationMode M latitude longitude intervention_type scale_amount
      duration_months noise = .ok p)
    (r : MonthRecord) (hr : r ∈ p.monthly_progress) :
    r.temperature_change_celsius ≤ 0 := by
  rw [simulationMode_monthly M latitude longitude intervention_type
    scale_amount duration_months noise p hp] at hr
  rcases List.mem_map.mp hr with ⟨m, _, rfl⟩
  simp only [monthRecord]
  exact neg_nonpos.mpr (abs_nonneg _)

/-- C10: every monthly record produced by the simulation mode has a
non-negative CO2 reduction (the source clamps at zero with max), for
every location, intervention type, scale, duration, noise sequence
(including draws below -1 that make the pre-clamp product negative) and
interpretation of the transcendental bundle. -/
theorem c10_co2_reduction_nonnegative (M : MathFns) (latitude longitude : ℚ)
    (intervention_type : String) (scale_amount : ℚ)
    (duration_months : ℕ) (noise : ℕ → ℚ) (p : SimPayload)
    (hp : simulationMode M latitude longitude intervention_type scale_amount
      duration_months noise = .ok p)
    (r : MonthRecord) (hr : r ∈ p.monthly_progress) :
    0 ≤ r.co2_reduction_ppm := by
  rw [simulationMode_monthly M latitude longitude intervention_type
    scale_amount duration_months noise p hp] at hr
  rcases List.mem_map.mp hr with ⟨m, _, rfl⟩
  simp only [monthRecord]
  exact le_max_left 0 _

/-- The simulation payload of a concrete one-month biochar run with a
noise draw of -3 (below -1), used by the C8 and C10 witnesses. -/
def simPayloadBiochar : SimPayload :=
  (simulationMode zeroFns 0 0 "biochar" 100 1 fun _ => -3).toOption.getD
    default

/-- The first monthly record of `simPayloadBiochar`. -/
def monthRecordBiochar : MonthRecord := simPayloadBiochar.monthly_progress.headI

theorem simPayloadBiochar_ok :
    simulationMode zeroFns 0 0 "biochar" 100 1 (fun _ => -3) =
      .ok simPayloadBiochar := by
  have h : ∃ q, simulationMode zeroFns 0 0 "biochar" 100 1 (fun _ => -3) =
      .ok q := by
    simp only [simulationMode]
    norm_num
  obtain ⟨q, hq⟩ := h
  rw [hq, Except.ok.injEq, simPayloadBiochar, hq]
  rfl

theorem monthRecordBiochar_mem :
    monthRecordBiochar ∈ simPayloadBiochar.monthly_progress := by
  have h := simulationMode_monthly zeroFns 0 0 "biochar" 100 1 (fun _ => -3)
    simPayloadBiochar simPayloadBiochar_ok
  rw [monthRecordBiochar, h, monthlyProgress]
  simp [List.range_succ, List.range_zero]

/-- Witness for C8 at a concrete one-month biochar run whose noise draw
is -3. -/
theorem c8_cooling_witness :
    simulationMode zeroFns 0 0 "biochar" 100 1 (fun _ => -3) =
      .ok simPayloadBiochar ∧
    monthRecordBiochar ∈ simPayloadBiochar.monthly_progress ∧
    monthRecordBiochar.temperature_change_celsius ≤ 0 :=
  ⟨simPayloadBiochar_ok, monthRecordBiochar_mem,
    c8_cooling_nonpositive zeroFns 0 0 "biochar" 100 1 (fun _ => -3)
      simPayloadBiochar simPayloadBiochar_ok monthRecordBiochar
      monthRecordBiochar_mem⟩

/-- Witness for C10 at the same concrete run: the noise draw -3 makes the
pre-clamp product negative, yet the recorded CO2 reduction is
non-negative. -/
theorem c10_co2_witness :
    simulationMode zeroFns 0 0 "biochar" 100 1 (fun _ => -3) =
      .ok simPayloadBiochar ∧
    monthRecordBiochar ∈ simPayloadBiochar.monthly_progress ∧
    0 ≤ monthRecordBiochar.co2_reduction_ppm :=
  ⟨simPayloadBiochar_ok, monthRecordBiochar_mem,
    c10_co2_reduction_nonnegative zeroFns 0 0 "biochar" 100 1 (fun _ => -3)
      simPayloadBiochar simPayloadBiochar_ok monthRecordBiochar
      monthRecordBiochar_mem⟩

/-- C7 counterexample: for the unknown type cloud_seeding the simulator
does fall back to the biochar effectiveness row and does return success,
but no key of the returned dict is a fallback flag — in particular
fallback_used appears nowhere in the result. -/
theorem c7_no_fallback_flag :
    effectivenessFactors.lookup "cloud_seeding" = none ∧
    factorsFor "cloud_seeding" = biocharFactors ∧
    (simulateClimateImpact zeroFns 0 0 "cloud_seeding" 100 1
      fun _ => 0).success = true ∧
    "fallback_used" ∉ simulationModeKeys := by
  refine ⟨?_, ?_, ?_, by decide⟩
  · simp +decide [effectivenessFactors, List.lookup]
  · simp +decide [factorsFor, effectivenessFactors, List.lookup,
      biocharFactors]
  · have h : ∃ q, simulationMode zeroFns 0 0 "cloud_seeding" 100 1
        (fun _ => 0) = .ok q := by
      simp only [simulationMode]
      norm_num
    obtain ⟨q, hq⟩ := h
    simp [simulateClimateImpact, hq, SimResult.success]

/-- C7 amended: for every intervention type outside the effectiveness
table (and any run with non-zero duration and scale), the simulator
returns a success result whose effectiveness factors are the biochar
row, but the result carries no fallback flag: fallback_used is not among
the keys of the returned dict. -/
theorem c7_unknown_type_uses_biochar (M : MathFns)
    (latitude longitude scale_amount : ℚ) (duration_months : ℕ)
    (noise : ℕ → ℚ) (intervention_type : String)
    (hty : effectivenessFactors.lookup intervention_type = none)
    (hdur : duration_months ≠ 0) (hscale : scale_amount ≠ 0) :
    ∃ p, simulateClimateImpact M latitude longitude intervention_type
        scale_amount duration_months noise = SimResult.ok p ∧
      p.effectiveness_factors = biocharFactors ∧
      "fallback_used" ∉ simulationModeKeys := by
  have h : ∃ q, simulationMode M latitude longitude intervention_type
      scale_amount duration_months noise = .ok q ∧
      q.effectiveness_factors = factorsFor intervention_type := by
    simp only [simulationMode]
    rw [if_neg hdur, if_neg hscale]
    exact ⟨_, rfl, rfl⟩
  obtain ⟨q, hq, hfac⟩ := h
  refine ⟨q, ?_, ?_, by decide⟩
  · simp [simulateClimateImpact, hq]
  · rw [hfac, factorsFor, hty]
    rfl

/-- Witness for the amended C7 theorem at the concrete unknown type
cloud_seeding with duration 1 and scale 100. -/
theorem c7_unknown_type_witness :
    effectivenessFactors.lookup "cloud_seeding" = none ∧ (1 : ℕ) ≠ 0 ∧
    (100 : ℚ) ≠ 0 ∧
    ∃ p, simulateClimateImpact zeroFns 0 0 "cloud_seeding" 100 1
        (fun _ => 0) = SimResult.ok p ∧
      p.effectiveness_factors = biocharFactors ∧
      "fallback_used" ∉ simulationModeKeys := by
  have hty : effectivenessFactors.lookup "cloud_seeding" = none := by
    simp +decide [effectivenessFactors, List.lookup]
  exact ⟨hty, by decide, by norm_num,
    c7_unknown_type_uses_biochar zeroFns 0 0 100 1 (fun _ => 0)
      "cloud_seeding" hty (by decide) (by norm_num)⟩

end Climate
